import Mathlib

/-!
Verification of the `wimpod` namespace-administration CLI (`src/main.rs`).

The development shallowly embeds the program: every HTTP exchange is a pure
function of the response the transport would deliver (`Option Response`,
`none` modelling a transport failure), terminal output is a list of tagged
`OutputAction`s, and process termination is an explicit `CommandResult`.
The JSON emission produced via `serde_json::to_string_pretty` is modelled
character-exactly (two-space indent, `BTreeMap`-sorted keys, the standard
escape table), and a standalone JSON parser lets round-trip properties be
stated about the emitted text.
-/

set_option maxRecDepth 8000

namespace Wimpod

/-- Output format selected by the `--format` flag (`enum PrintFormat`). -/
inductive PrintFormat where
  | normal
  | json
deriving DecidableEq

/-- One ranked query entry of a stats response (`struct TopQuery`).
Rust `i32` fields become `Int`; deserialization enforces the `i32` range. -/
structure TopQuery where
  rows_written : Int
  rows_read : Int
  query : String
deriving DecidableEq

/-- Statistics snapshot for one namespace (`struct NamespaceStats`).
Rust `u64` fields become `Nat`; deserialization enforces the `u64` range. -/
structure NamespaceStats where
  rows_read_count : Nat
  rows_written_count : Nat
  storage_bytes_used : Nat
  write_requests_delegated : Nat
  replication_index : Nat
  top_queries : List TopQuery
deriving DecidableEq

/-- Namespace configuration (`struct Config`). -/
structure Config where
  block_reads : Bool
  block_writes : Bool
  block_reason : Option String
  max_db_size : Option String
deriving DecidableEq

/-- Structured error body of a non-2xx lifecycle response (`struct ServerError`). -/
structure ServerError where
  error : String
deriving DecidableEq

/-- The CLI subcommands (`enum Commands`). -/
inductive Commands where
  | stats (ns : String) (include_top_queries : Bool)
  | createNamespace (name : String)
  | deleteNamespace (name : String)
  | fork (fromNs : String) (toNs : String)
deriving DecidableEq

/-- An HTTP response as observed by the client: numeric status code and the
raw body text. A transport-level failure is modelled as the absence of a
`Response` (`Option Response` below). -/
structure Response where
  status : Nat
  body : String
deriving DecidableEq

/-- Modelled from `reqwest`: `StatusCode::is_success` holds exactly for the
2xx range. -/
def is_success (status : Nat) : Bool :=
  200 ≤ status && status ≤ 299

/-- The route a piece of terminal output takes. `viaWriteStr` is the guarded
`write_str` helper (stdout, exits 0 on a failed write); `viaPrintln` is the
bare `println!` macro (stdout); `viaEprintln` is the bare `eprintln!` macro
(stderr). -/
inductive WriteVia where
  | viaWriteStr
  | viaPrintln
  | viaEprintln
deriving DecidableEq

/-- The stream a given output route writes to. -/
inductive OutStream where
  | stdout
  | stderr
deriving DecidableEq

/-- Stream targeted by each output route. -/
def streamOf : WriteVia → OutStream
  | .viaWriteStr => .stdout
  | .viaPrintln => .stdout
  | .viaEprintln => .stderr

/-- What the process does when a given kind of write fails (stream closed). -/
inductive FailBehavior where
  | exitZero
  | crash
deriving DecidableEq

/-- Failure behaviour of each output route. `write_str` (src/main.rs:215-225)
exits with status 0 on a write error; modelled from Rust std, the `println!`
and `eprintln!` macros panic (crash the process) when the write fails. -/
def writeFailureBehavior : WriteVia → FailBehavior
  | .viaWriteStr => .exitZero
  | .viaPrintln => .crash
  | .viaEprintln => .crash

/-- One line of terminal output: the route it was written through (which
determines stream and failure behaviour) and the text of the line. -/
structure OutputAction where
  sink : WriteVia
  text : String
deriving DecidableEq

/-- Result of running one dispatched command to completion.
`completed`: `main` returned normally (process exit status 0).
`exited`: the program called `std::process::exit` with the given code.
`crashed`: an `unwrap`/`expect` panicked with the given message. In every
case `out` lists the terminal output emitted before termination. -/
inductive CommandResult where
  | completed (out : List OutputAction)
  | exited (code : Int) (out : List OutputAction)
  | crashed (msg : String) (out : List OutputAction)
deriving DecidableEq

/-- Output actions emitted by a finished command, regardless of how it ended. -/
def outputsOf : CommandResult → List OutputAction
  | .completed out => out
  | .exited _ out => out
  | .crashed _ out => out

/-! ## JSON emission, modelled from `serde_json::to_string_pretty`

The program serializes three shapes: `json!({"success": true})`,
`json!({"success": true, "stats": &stats})`, and a `ServerError`.
`serde_json`'s `Value` maps are `BTreeMap`s, so object keys appear in
sorted order; the pretty printer uses two-space indentation and escapes
`"`, `\` and control characters (short escapes for `\b \t \n \f \r`,
`\u00XX` otherwise). The emission is modelled character-exactly. -/

/-- Character list of a string literal (helper for building emitted text). -/
def chars (s : String) : List Char := s.data

/-- Lowercase hexadecimal digit, as used by `serde_json`'s `\u00XX` escapes. -/
def hexDigit (n : Nat) : Char :=
  if n < 10 then Char.ofNat (48 + n) else Char.ofNat (87 + n)

/-- Escape sequence `serde_json` emits for one character inside a JSON
string: `\"`, `\\`, short escapes for the five named control characters,
`\u00XX` for the remaining control characters, and the character itself
otherwise. -/
def escChar (c : Char) : List Char :=
  if c = '"' then ['\\', '"']
  else if c = '\\' then ['\\', '\\']
  else if c = Char.ofNat 8 then ['\\', 'b']
  else if c = Char.ofNat 9 then ['\\', 't']
  else if c = Char.ofNat 10 then ['\\', 'n']
  else if c = Char.ofNat 12 then ['\\', 'f']
  else if c = Char.ofNat 13 then ['\\', 'r']
  else if c.toNat < 32 then
    ['\\', 'u', '0', '0', hexDigit (c.toNat / 16), hexDigit (c.toNat % 16)]
  else [c]

/-- Escaped rendering of a character list. -/
def escList : List Char → List Char
  | [] => []
  | c :: r => escChar c ++ escList r

/-- Escaped rendering of a string, as it appears between the quotes of a
JSON string literal. -/
def escChars (s : String) : List Char := escList s.data

/-- Decimal digits of `n`, most significant first (`fuel` bounds recursion;
`natChars` supplies enough). Empty for `n = 0`. -/
def natDigits : Nat → Nat → List Char
  | 0, _ => []
  | fuel + 1, n =>
    if n = 0 then [] else natDigits fuel (n / 10) ++ [Char.ofNat (48 + n % 10)]

/-- Decimal rendering of a natural number, as `serde_json` writes a `u64`. -/
def natChars (n : Nat) : List Char :=
  if n = 0 then ['0'] else natDigits (n + 1) n

/-- Decimal rendering of an integer, as `serde_json` writes an `i32`. -/
def intChars (i : Int) : List Char :=
  if i < 0 then '-' :: natChars i.natAbs else natChars i.toNat

/-- Emitted text of `to_string_pretty(json!({"success": true}))`. -/
def successJsonChars : List Char :=
  chars "\x7b\n  \"success\": true\n\x7d"

/-- Emitted text of `to_string_pretty(&err)` for a `ServerError`. -/
def errorJsonChars (e : ServerError) : List Char :=
  chars "\x7b\n  \"error\": \"" ++ escChars e.error ++ chars "\"\n\x7d"

/-- Pretty rendering of one `TopQuery` as an object at nesting depth 3
(fields indented eight spaces), keys in `BTreeMap` order. -/
def topQueryChars (q : TopQuery) : List Char :=
  chars "\x7b\n        \"query\": \"" ++ escChars q.query
    ++ chars "\",\n        \"rows_read\": " ++ intChars q.rows_read
    ++ chars ",\n        \"rows_written\": " ++ intChars q.rows_written
    ++ chars "\n      \x7d"

/-- Second and later elements of the `top_queries` array: each is preceded
by a comma, a newline and the six-space element indent. -/
def moreItemsChars : List TopQuery → List Char
  | [] => []
  | q :: qs => chars ",\n      " ++ topQueryChars q ++ moreItemsChars qs

/-- Pretty rendering of the `top_queries` array at nesting depth 2:
`[]` when empty, otherwise one element per line. -/
def topQueriesChars : List TopQuery → List Char
  | [] => chars "[]"
  | q :: qs =>
    chars "[\n      " ++ topQueryChars q ++ moreItemsChars qs ++ chars "\n    ]"

/-- Emitted text of `to_string_pretty(&json!({"success": true, "stats": &stats}))`.
Keys appear in `BTreeMap`-sorted order, so `stats` precedes `success` and
the six stats fields are alphabetical. -/
def statsJsonChars (s : NamespaceStats) : List Char :=
  chars "\x7b\n  \"stats\": \x7b\n    \"replication_index\": "
    ++ natChars s.replication_index
    ++ chars ",\n    \"rows_read_count\": " ++ natChars s.rows_read_count
    ++ chars ",\n    \"rows_written_count\": " ++ natChars s.rows_written_count
    ++ chars ",\n    \"storage_bytes_used\": " ++ natChars s.storage_bytes_used
    ++ chars ",\n    \"top_queries\": " ++ topQueriesChars s.top_queries
    ++ chars ",\n    \"write_requests_delegated\": "
    ++ natChars s.write_requests_delegated
    ++ chars "\n  \x7d,\n  \"success\": true\n\x7d"

/-- String form of the no-payload success JSON. -/
def successJsonText : String := String.mk successJsonChars

/-- String form of the pretty-printed `ServerError`. -/
def errorJsonText (e : ServerError) : String := String.mk (errorJsonChars e)

/-- String form of the pretty-printed stats success object. -/
def statsJsonText (s : NamespaceStats) : String := String.mk (statsJsonChars s)

/-! ## Renderers (src/main.rs:183-255) -/

/-- Rendering of `print_stats` (src/main.rs:183-213). Normal mode prints the
five scalar lines, then, only when `top_queries` is non-empty, a header and
one zero-indexed line per entry; Json mode writes the pretty stats object
through `write_str`. -/
def print_stats (stats : NamespaceStats) : PrintFormat → List OutputAction
  | .normal =>
    [⟨.viaPrintln, "Rows Read: " ++ toString stats.rows_read_count⟩,
     ⟨.viaPrintln, "Rows Written: " ++ toString stats.rows_written_count⟩,
     ⟨.viaPrintln, "Storage Used (B): " ++ toString stats.storage_bytes_used⟩,
     ⟨.viaPrintln, "Write Requests Delegated: " ++ toString stats.write_requests_delegated⟩,
     ⟨.viaPrintln, "Replication Index: " ++ toString stats.replication_index⟩]
    ++ (if stats.top_queries.isEmpty then [] else
      ⟨.viaPrintln, "Top Queries (RR = Rows Read : RW = Rows Written):"⟩ ::
        stats.top_queries.enum.map (fun p =>
          ⟨.viaPrintln, toString p.1 ++ ": RR: " ++ toString p.2.rows_read
            ++ " RW: " ++ toString p.2.rows_written ++ " Query: " ++ p.2.query⟩))
  | .json => [⟨.viaWriteStr, statsJsonText stats⟩]

/-- Rendering of `print_success` (src/main.rs:244-255). -/
def print_success : PrintFormat → List OutputAction
  | .normal => [⟨.viaPrintln, "Success"⟩]
  | .json => [⟨.viaWriteStr, successJsonText⟩]

/-- Behaviour of `print_server_error` (src/main.rs:227-242): render the error
in the selected format, then `std::process::exit(-1)`. -/
def print_server_error (err : ServerError) (format : PrintFormat) : CommandResult :=
  .exited (-1)
    (match format with
     | .normal => [⟨.viaEprintln, "Error: " ++ err.error⟩]
     | .json => [⟨.viaWriteStr, errorJsonText err⟩])

/-! ## JSON parsing

A standalone executable JSON parser, used both to model the `serde_json`
deserialization the client performs on response bodies and to state the
round-trip properties of the emitted text. The parser is fuelled (one unit
per value/field/element step) and `parseJson` supplies input-length fuel,
which is always sufficient since every step consumes input. Object fields
are kept in textual order. -/

/-- JSON values as read back by the parser. -/
inductive Json where
  | null
  | bool (b : Bool)
  | num (n : Int)
  | str (s : String)
  | arr (elems : List Json)
  | obj (fields : List (String × Json))

/-- ASCII decimal digit test. -/
def isDigitC (c : Char) : Bool := '0' ≤ c && c ≤ '9'

/-- JSON insignificant whitespace test. -/
def isWs (c : Char) : Bool := c = ' ' || c = '\n' || c = '\t' || c = '\r'

/-- Left brace character, the opening delimiter of a JSON object. -/
def lbrace : Char := Char.ofNat 123

/-- Right brace character, the closing delimiter of a JSON object. -/
def rbrace : Char := Char.ofNat 125

/-- Drop leading insignificant whitespace. -/
def skipWs : List Char → List Char
  | [] => []
  | c :: r => if isWs c then skipWs r else c :: r

/-- Numeric value of a hexadecimal digit character. -/
def hexVal (c : Char) : Option Nat :=
  if '0' ≤ c && c ≤ '9' then some (c.toNat - 48)
  else if 'a' ≤ c && c ≤ 'f' then some (c.toNat - 87)
  else if 'A' ≤ c && c ≤ 'F' then some (c.toNat - 55)
  else none

/-- Character denoted by a single-character JSON escape. -/
def unescape (c : Char) : Option Char :=
  if c = '"' then some '"'
  else if c = '\\' then some '\\'
  else if c = '/' then some '/'
  else if c = 'b' then some (Char.ofNat 8)
  else if c = 'f' then some (Char.ofNat 12)
  else if c = 'n' then some (Char.ofNat 10)
  else if c = 'r' then some (Char.ofNat 13)
  else if c = 't' then some (Char.ofNat 9)
  else none

/-- Parse the body of a JSON string after its opening quote, returning the
decoded characters and the input following the closing quote. `\uXXXX`
escapes are accepted for non-surrogate code points. -/
def parseStrBody : List Char → Option (List Char × List Char)
  | [] => none
  | c :: r =>
    if c = '"' then some ([], r)
    else if c = '\\' then
      match r with
      | [] => none
      | e :: r2 =>
        if e = 'u' then
          match r2 with
          | a :: b :: c2 :: d :: r3 =>
            match hexVal a, hexVal b, hexVal c2, hexVal d with
            | some ha, some hb, some hc, some hd =>
              let n := ((ha * 16 + hb) * 16 + hc) * 16 + hd
              if n < 55296 then
                (parseStrBody r3).map (fun p => (Char.ofNat n :: p.1, p.2))
              else if 57344 ≤ n then
                (parseStrBody r3).map (fun p => (Char.ofNat n :: p.1, p.2))
              else none
            | _, _, _, _ => none
          | _ => none
        else
          match unescape e with
          | some u => (parseStrBody r2).map (fun p => (u :: p.1, p.2))
          | none => none
    else (parseStrBody r).map (fun p => (c :: p.1, p.2))

/-- Split a maximal run of decimal digits off the front of the input. -/
def takeDigits : List Char → List Char × List Char
  | [] => ([], [])
  | c :: r =>
    if isDigitC c then
      let p := takeDigits r
      (c :: p.1, p.2)
    else ([], c :: r)

/-- Numeric value of a digit run (most significant first). -/
def digitsVal (ds : List Char) : Nat :=
  ds.foldl (fun acc c => acc * 10 + (c.toNat - 48)) 0

mutual

/-- Parse one JSON value, returning it with the unconsumed input. -/
def parseValue : Nat → List Char → Option (Json × List Char)
  | 0, _ => none
  | fuel + 1, s =>
    match skipWs s with
    | [] => none
    | c :: r =>
      if c = '"' then
        (parseStrBody r).map (fun p => (Json.str (String.mk p.1), p.2))
      else if c = '[' then parseArr fuel r
      else if c = lbrace then parseObj fuel r
      else if c = 't' then
        match r with
        | 'r' :: 'u' :: 'e' :: r2 => some (Json.bool true, r2)
        | _ => none
      else if c = 'f' then
        match r with
        | 'a' :: 'l' :: 's' :: 'e' :: r2 => some (Json.bool false, r2)
        | _ => none
      else if c = 'n' then
        match r with
        | 'u' :: 'l' :: 'l' :: r2 => some (Json.null, r2)
        | _ => none
      else if c = '-' then
        match takeDigits r with
        | ([], _) => none
        | (ds, rest) => some (Json.num (-(Int.ofNat (digitsVal ds))), rest)
      else if isDigitC c then
        match takeDigits (c :: r) with
        | ([], _) => none
        | (ds, rest) => some (Json.num (Int.ofNat (digitsVal ds)), rest)
      else none

/-- Parse the contents of an array after its opening bracket. -/
def parseArr : Nat → List Char → Option (Json × List Char)
  | 0, _ => none
  | fuel + 1, s =>
    match skipWs s with
    | ']' :: r => some (Json.arr [], r)
    | s' =>
      (parseValue fuel s').bind (fun p =>
        (parseArrRest fuel p.2).map (fun q => (Json.arr (p.1 :: q.1), q.2)))

/-- Parse the elements of an array after its first element. -/
def parseArrRest : Nat → List Char → Option (List Json × List Char)
  | 0, _ => none
  | fuel + 1, s =>
    match skipWs s with
    | ']' :: r => some ([], r)
    | ',' :: r =>
      (parseValue fuel r).bind (fun p =>
        (parseArrRest fuel p.2).map (fun q => (p.1 :: q.1, q.2)))
    | _ => none

/-- Parse the contents of an object after its opening brace. -/
def parseObj : Nat → List Char → Option (Json × List Char)
  | 0, _ => none
  | fuel + 1, s =>
    match skipWs s with
    | [] => none
    | c :: r =>
      if c = rbrace then some (Json.obj [], r)
      else if c = '"' then
        (parseStrBody r).bind (fun kp =>
          match skipWs kp.2 with
          | ':' :: r3 =>
            (parseValue fuel r3).bind (fun vp =>
              (parseObjRest fuel vp.2).map (fun fp =>
                (Json.obj ((String.mk kp.1, vp.1) :: fp.1), fp.2)))
          | _ => none)
      else none

/-- Parse the fields of an object after its first field. -/
def parseObjRest : Nat → List Char → Option (List (String × Json) × List Char)
  | 0, _ => none
  | fuel + 1, s =>
    match skipWs s with
    | [] => none
    | c :: r =>
      if c = rbrace then some ([], r)
      else if c = ',' then
        match skipWs r with
        | '"' :: r2 =>
          (parseStrBody r2).bind (fun kp =>
            match skipWs kp.2 with
            | ':' :: r4 =>
              (parseValue fuel r4).bind (fun vp =>
                (parseObjRest fuel vp.2).map (fun fp =>
                  ((String.mk kp.1, vp.1) :: fp.1, fp.2)))
            | _ => none)
        | _ => none
      else none

end

/-- Parse a complete JSON document: one value, with only whitespace after it. -/
def parseJson (s : String) : Option Json :=
  match parseValue (s.data.length + 1) s.data with
  | some (v, rest) => if skipWs rest = [] then some v else none
  | none => none

/-! ## Deserialization of response bodies, modelled from `serde` -/

/-- First field of an object with the given key, as `serde` field lookup
(unknown fields are ignored; the program never receives duplicate keys). -/
def lookupField : List (String × Json) → String → Option Json
  | [], _ => none
  | (k, v) :: fs, key => if k = key then some v else lookupField fs key

/-- Deserialize a `ServerError` from a JSON value: an object whose `error`
field is a string. -/
def serverErrorFromJson : Json → Option ServerError
  | .obj fields =>
    match lookupField fields "error" with
    | some (.str s) => some ⟨s⟩
    | _ => none
  | _ => none

/-- Deserialize a `u64` field: an integer within the `u64` range. -/
def u64FromJson : Json → Option Nat
  | .num n => if 0 ≤ n ∧ n < 2 ^ 64 then some n.toNat else none
  | _ => none

/-- Deserialize an `i32` field: an integer within the `i32` range. -/
def i32FromJson : Json → Option Int
  | .num n => if -(2 ^ 31) ≤ n ∧ n < 2 ^ 31 then some n else none
  | _ => none

/-- Deserialize one `TopQuery` entry. -/
def topQueryFromJson : Json → Option TopQuery
  | .obj fields =>
    match lookupField fields "rows_written", lookupField fields "rows_read",
        lookupField fields "query" with
    | some jw, some jr, some (.str q) =>
      match i32FromJson jw, i32FromJson jr with
      | some w, some r => some ⟨w, r, q⟩
      | _, _ => none
    | _, _, _ => none
  | _ => none

/-- Deserialize a `NamespaceStats` from a JSON value. -/
def statsFromJson : Json → Option NamespaceStats
  | .obj fields =>
    match lookupField fields "rows_read_count", lookupField fields "rows_written_count",
        lookupField fields "storage_bytes_used", lookupField fields "write_requests_delegated",
        lookupField fields "replication_index", lookupField fields "top_queries" with
    | some ja, some jb, some jc, some jd, some je, some (.arr items) =>
      match u64FromJson ja, u64FromJson jb, u64FromJson jc, u64FromJson jd,
          u64FromJson je, items.mapM topQueryFromJson with
      | some a, some b, some c, some d, some e, some qs => some ⟨a, b, c, d, e, qs⟩
      | _, _, _, _, _, _ => none
    | _, _, _, _, _, _ => none
  | _ => none

/-- Deserialize an optional string field (`Option<String>` in `serde`:
missing or `null` give `none`). Returns `none` on a type mismatch. -/
def optStringFromJson : Option Json → Option (Option String)
  | none => some none
  | some .null => some none
  | some (.str s) => some (some s)
  | some _ => none

/-- Deserialize a `Config` from a JSON value. -/
def configFromJson : Json → Option Config
  | .obj fields =>
    match lookupField fields "block_reads", lookupField fields "block_writes" with
    | some (.bool br), some (.bool bw) =>
      match optStringFromJson (lookupField fields "block_reason"),
          optStringFromJson (lookupField fields "max_db_size") with
      | some reason, some size => some ⟨br, bw, reason, size⟩
      | _, _ => none
    | _, _ => none
  | _ => none

/-- Result of `res.json::<ServerError>()` on a body. -/
def serverErrorFromBody (body : String) : Option ServerError :=
  (parseJson body).bind serverErrorFromJson

/-- Result of `res.json::<NamespaceStats>()` on a body. -/
def statsFromBody (body : String) : Option NamespaceStats :=
  (parseJson body).bind statsFromJson

/-- Result of `res.json::<Config>()` on a body. -/
def configFromBody (body : String) : Option Config :=
  (parseJson body).bind configFromJson

/-! ## The `Server` client methods (src/main.rs:81-181)

Each method performs one HTTP call; its behaviour is a pure function of the
delivered response (`none` = transport failure, i.e. `send()` returned
`Err`). The request URL each method builds is modelled by a companion
definition, transcribed from the `format!` call. -/

/-- Outcome of one lifecycle call: success, a typed server error, or a
client-side panic (an `unwrap` of a failed `Result`). -/
inductive LifecycleResult where
  | ok
  | serverErr (e : ServerError)
  | crashed (msg : String)
deriving DecidableEq

/-- Panic message of `Result::unwrap` on an `Err` value (Rust std). -/
def unwrapMsg : String := "called `Result::unwrap()` on an `Err` value"

/-- URL built by `Server::create_namespace` (src/main.rs:90-91). -/
def create_namespace_url (base_url ns : String) : String :=
  s!"{base_url}/v1/namespaces/{ns}/create"

/-- URL built by `Server::delete_namespace` (src/main.rs:103). -/
def delete_namespace_url (base_url ns : String) : String :=
  s!"{base_url}/v1/namespaces/{ns}"

/-- URL built by `Server::fork_namespace` (src/main.rs:115-116). -/
def fork_namespace_url (base_url fromNs toNs : String) : String :=
  s!"{base_url}/v1/namespaces/{fromNs}/fork/{toNs}"

/-- URL built by `Server::namespace_stats` (src/main.rs:128-129). -/
def namespace_stats_url (base_url ns : String) : String :=
  s!"{base_url}/v1/namespaces/{ns}/stats"

/-- URL built by `Server::get_namespace_config` and
`Server::set_namespace_config` (src/main.rs:143-144, 163-164). -/
def namespace_config_url (base_url ns : String) : String :=
  s!"{base_url}/v1/namespaces/{ns}/config"

/-- Behaviour of `Server::create_namespace` (src/main.rs:89-100): `send()`
failure is `unwrap`ped (panic); on non-2xx the body is `unwrap`-deserialized
as `ServerError` (panic if it does not parse) and returned as the error;
2xx is success. -/
def create_namespace (resp : Option Response) : LifecycleResult :=
  match resp with
  | none => .crashed unwrapMsg
  | some res =>
    if !is_success res.status then
      match serverErrorFromBody res.body with
      | some e => .serverErr e
      | none => .crashed unwrapMsg
    else .ok

/-- Behaviour of `Server::delete_namespace` (src/main.rs:102-112), identical
in structure to `create_namespace`. -/
def delete_namespace (resp : Option Response) : LifecycleResult :=
  match resp with
  | none => .crashed unwrapMsg
  | some res =>
    if !is_success res.status then
      match serverErrorFromBody res.body with
      | some e => .serverErr e
      | none => .crashed unwrapMsg
    else .ok

/-- Behaviour of `Server::fork_namespace` (src/main.rs:114-125), identical
in structure to `create_namespace`. -/
def fork_namespace (resp : Option Response) : LifecycleResult :=
  match resp with
  | none => .crashed unwrapMsg
  | some res =>
    if !is_success res.status then
      match serverErrorFromBody res.body with
      | some e => .serverErr e
      | none => .crashed unwrapMsg
    else .ok

/-- Diagnostic line `println!("Res: {:#?}", res.json::<serde_json::Value>())`
printed by the stats/config methods on a non-2xx response. The `Debug`
rendering of the parsed body is modelled opaquely by the raw body text; no
claim depends on its exact format, only on the write being an unguarded
`println!`. -/
def response_diag (body : String) : OutputAction :=
  ⟨.viaPrintln, "Res: " ++ body⟩

/-- Behaviour of `Server::namespace_stats` (src/main.rs:127-140): transport
failure gives `none`; non-2xx prints a diagnostic and gives `none`; a 2xx
body that fails to deserialize gives `none`; otherwise the stats. -/
def namespace_stats (resp : Option Response) : List OutputAction × Option NamespaceStats :=
  match resp with
  | none => ([], none)
  | some res =>
    if !is_success res.status then ([response_diag res.body], none)
    else
      match statsFromBody res.body with
      | some s => ([], some s)
      | none => ([], none)

/-- Behaviour of `Server::get_namespace_config` (src/main.rs:142-156), the
same absent-on-failure shape as `namespace_stats` with a `Config` body. -/
def get_namespace_config (resp : Option Response) : List OutputAction × Option Config :=
  match resp with
  | none => ([], none)
  | some res =>
    if !is_success res.status then ([response_diag res.body], none)
    else
      match configFromBody res.body with
      | some c => ([], some c)
      | none => ([], none)

/-- Behaviour of `Server::set_namespace_config` (src/main.rs:158-173). Note
the success branch falls through to `None` (src/main.rs:172): the method
returns `None` in every case, including a 2xx response. -/
def set_namespace_config (resp : Option Response) : List OutputAction × Option Unit :=
  match resp with
  | none => ([], none)
  | some res =>
    if !is_success res.status then ([response_diag res.body], none)
    else ([], none)

/-! ## The dispatcher (src/main.rs:257-299) -/

/-- Panic message of the `expect` on a failed stats retrieval
(src/main.rs:269, message as written in the source). -/
def statsExpectMsg : String := "Failed to retrive namespace stats"

/-- Behaviour of `main`'s dispatch on one parsed command, given the response
the transport would deliver for the single HTTP call the command performs. -/
def runCommand (cmd : Commands) (format : PrintFormat) (resp : Option Response) :
    CommandResult :=
  match cmd with
  | .stats _ include_top_queries =>
    match namespace_stats resp with
    | (diag, none) => .crashed statsExpectMsg diag
    | (diag, some stats) =>
      let stats := if !include_top_queries then { stats with top_queries := [] } else stats
      .completed (diag ++ print_stats stats format)
  | .createNamespace _ =>
    match create_namespace resp with
    | .ok => .completed (print_success format)
    | .serverErr e => print_server_error e format
    | .crashed m => .crashed m []
  | .deleteNamespace _ =>
    match delete_namespace resp with
    | .ok => .completed (print_success format)
    | .serverErr e => print_server_error e format
    | .crashed m => .crashed m []
  | .fork _ _ =>
    match fork_namespace resp with
    | .ok => .completed (print_success format)
    | .serverErr e => print_server_error e format
    | .crashed m => .crashed m []

/-! ## Round-trip: the emitted pretty JSON parses back to the emitted value -/

/-- JSON value serialized for one `TopQuery` (keys in `BTreeMap` order). -/
def topQueryToJson (q : TopQuery) : Json :=
  .obj [("query", .str q.query), ("rows_read", .num q.rows_read),
    ("rows_written", .num q.rows_written)]

/-- JSON value serialized for a `NamespaceStats` (keys in `BTreeMap` order). -/
def statsToJson (s : NamespaceStats) : Json :=
  .obj [("replication_index", .num s.replication_index),
    ("rows_read_count", .num s.rows_read_count),
    ("rows_written_count", .num s.rows_written_count),
    ("storage_bytes_used", .num s.storage_bytes_used),
    ("top_queries", .arr (s.top_queries.map topQueryToJson)),
    ("write_requests_delegated", .num s.write_requests_delegated)]

/-- Field list of the serialized stats success object. -/
def statsSuccessFields (s : NamespaceStats) : List (String × Json) :=
  [("stats", statsToJson s), ("success", .bool true)]

/-- JSON value serialized for `json!({"success": true, "stats": &stats})`. -/
def statsSuccessJson (s : NamespaceStats) : Json :=
  .obj (statsSuccessFields s)

/-- Digit status of the first input character (`false` on empty input);
used to state that number parsing stops at the right place. -/
def headDigit : List Char → Bool
  | [] => false
  | c :: _ => isDigitC c

theorem headDigit_cons (c : Char) (l : List Char) : headDigit (c :: l) = isDigitC c := rfl

theorem skipWs_append (pre s : List Char) (h : pre.all isWs = true) :
    skipWs (pre ++ s) = skipWs s := by
  induction pre with
  | nil => rfl
  | cons c r ih =>
    simp only [List.all_cons, Bool.and_eq_true] at h
    simp only [List.cons_append, skipWs, h.1, if_true]
    exact ih h.2

theorem hexVal_hexDigit (n : Nat) (h : n < 16) : hexVal (hexDigit n) = some n := by
  interval_cases n <;> decide

theorem parseStrBody_escChar (c : Char) (tail : List Char) :
    parseStrBody (escChar c ++ tail) = (parseStrBody tail).map (fun p => (c :: p.1, p.2)) := by
  by_cases h1 : c = '"'
  · subst h1
    rw [show escChar '"' = ['\\', '"'] from rfl, List.cons_append, List.cons_append,
      List.nil_append, parseStrBody.eq_def]
    simp [unescape]
  by_cases h2 : c = '\\'
  · subst h2
    rw [show escChar '\\' = ['\\', '\\'] from rfl, List.cons_append, List.cons_append,
      List.nil_append, parseStrBody.eq_def]
    simp [unescape]
  by_cases h3 : c = Char.ofNat 8
  · subst h3
    rw [show escChar (Char.ofNat 8) = ['\\', 'b'] from rfl, List.cons_append,
      List.cons_append, List.nil_append, parseStrBody.eq_def]
    simp [unescape]
  by_cases h4 : c = Char.ofNat 9
  · subst h4
    rw [show escChar (Char.ofNat 9) = ['\\', 't'] from rfl, List.cons_append,
      List.cons_append, List.nil_append, parseStrBody.eq_def]
    simp [unescape]
  by_cases h5 : c = Char.ofNat 10
  · subst h5
    rw [show escChar (Char.ofNat 10) = ['\\', 'n'] from rfl, List.cons_append,
      List.cons_append, List.nil_append, parseStrBody.eq_def]
    simp [unescape]
  by_cases h6 : c = Char.ofNat 12
  · subst h6
    rw [show escChar (Char.ofNat 12) = ['\\', 'f'] from rfl, List.cons_append,
      List.cons_append, List.nil_append, parseStrBody.eq_def]
    simp [unescape]
  by_cases h7 : c = Char.ofNat 13
  · subst h7
    rw [show escChar (Char.ofNat 13) = ['\\', 'r'] from rfl, List.cons_append,
      List.cons_append, List.nil_append, parseStrBody.eq_def]
    simp [unescape]
  by_cases h8 : c.toNat < 32
  · simp only [escChar, if_neg h1, if_neg h2, if_neg h3, if_neg h4, if_neg h5,
      if_neg h6, if_neg h7, if_pos h8, List.cons_append, List.nil_append]
    have hv1 : hexVal (hexDigit (c.toNat / 16)) = some (c.toNat / 16) :=
      hexVal_hexDigit _ (by omega)
    have hv2 : hexVal (hexDigit (c.toNat % 16)) = some (c.toNat % 16) :=
      hexVal_hexDigit _ (by omega)
    have hn : c.toNat / 16 * 16 + c.toNat % 16 = c.toNat := by omega
    rw [parseStrBody.eq_def]
    simp [hv1, hv2, hn, Char.ofNat_toNat, show hexVal '0' = some 0 from rfl,
      show c.toNat < 55296 by omega]
  · simp only [escChar, if_neg h1, if_neg h2, if_neg h3, if_neg h4, if_neg h5,
      if_neg h6, if_neg h7, if_neg h8, List.cons_append, List.nil_append]
    rw [parseStrBody.eq_def]
    simp [h1, h2]

theorem parseStrBody_escList (l tail : List Char) :
    parseStrBody (escList l ++ '"' :: tail) = some (l, tail) := by
  induction l with
  | nil =>
    rw [escList, List.nil_append, parseStrBody.eq_def]
    simp
  | cons c r ih =>
    rw [escList, List.append_assoc, parseStrBody_escChar, ih]
    rfl

theorem isDigitC_ofNat (m : Nat) (h : m < 10) : isDigitC (Char.ofNat (48 + m)) = true := by
  interval_cases m <;> decide

theorem toNat_ofNat_digit (m : Nat) (h : m < 10) : (Char.ofNat (48 + m)).toNat = 48 + m := by
  interval_cases m <;> decide

theorem natDigits_all_digit (fuel n : Nat) : (natDigits fuel n).all isDigitC = true := by
  induction fuel generalizing n with
  | zero => rfl
  | succ f ih =>
    rw [natDigits]
    by_cases h : n = 0
    · simp [h]
    · simp only [if_neg h, List.all_append, ih, Bool.true_and, List.all_cons, List.all_nil,
        Bool.and_true]
      exact isDigitC_ofNat _ (Nat.mod_lt _ (by norm_num))

theorem natDigits_ne_nil (fuel n : Nat) (h0 : n ≠ 0) (hf : fuel ≠ 0) :
    natDigits fuel n ≠ [] := by
  cases fuel with
  | zero => exact absurd rfl hf
  | succ f =>
    rw [natDigits, if_neg h0]
    simp

theorem natChars_all_digit (n : Nat) : (natChars n).all isDigitC = true := by
  rw [natChars]
  by_cases h : n = 0
  · simp [h]
    decide
  · rw [if_neg h]
    exact natDigits_all_digit _ _

theorem natChars_ne_nil (n : Nat) : natChars n ≠ [] := by
  rw [natChars]
  by_cases h : n = 0
  · simp [h]
  · rw [if_neg h]
    exact natDigits_ne_nil _ _ h (by omega)

theorem foldl_natDigits (fuel : Nat) : ∀ n acc : Nat, n ≤ fuel →
    (natDigits fuel n).foldl (fun a c => a * 10 + (c.toNat - 48)) acc
      = acc * 10 ^ (natDigits fuel n).length + n := by
  induction fuel with
  | zero =>
    intro n acc h
    have : n = 0 := by omega
    simp [this, natDigits]
  | succ f ih =>
    intro n acc h
    rw [natDigits]
    by_cases h0 : n = 0
    · simp [h0]
    · have hm : n % 10 < 10 := Nat.mod_lt _ (by norm_num)
      have hdiv : n / 10 ≤ f := by
        have := Nat.div_lt_self (show 0 < n by omega) (show 1 < 10 by norm_num)
        omega
      simp only [if_neg h0, List.foldl_append, List.foldl_cons, List.foldl_nil]
      rw [ih _ acc hdiv, toNat_ofNat_digit _ hm, List.length_append, List.length_cons,
        List.length_nil, zero_add, pow_succ, ← mul_assoc]
      have hd := Nat.div_add_mod n 10
      set A := acc * 10 ^ (natDigits f (n / 10)).length with hA
      omega

theorem digitsVal_natChars (n : Nat) : digitsVal (natChars n) = n := by
  rw [natChars]
  by_cases h : n = 0
  · simp [h]
    decide
  · rw [if_neg h]
    have := foldl_natDigits (n + 1) n 0 (by omega)
    simpa [digitsVal] using this

theorem takeDigits_append (ds rest : List Char) (hall : ds.all isDigitC = true)
    (hrest : headDigit rest = false) : takeDigits (ds ++ rest) = (ds, rest) := by
  induction ds with
  | nil =>
    cases rest with
    | nil => rfl
    | cons c r =>
      rw [headDigit_cons] at hrest
      simp [takeDigits, hrest]
  | cons c cs ih =>
    simp only [List.all_cons, Bool.and_eq_true] at hall
    simp [takeDigits, hall.1, ih hall.2]

theorem isDigitC_facts (c : Char) (h : isDigitC c = true) :
    c ≠ '"' ∧ c ≠ '[' ∧ c ≠ lbrace ∧ c ≠ 't' ∧ c ≠ 'f' ∧ c ≠ 'n' ∧ c ≠ '-' ∧
      isWs c = false := by
  refine ⟨?_, ?_, ?_, ?_, ?_, ?_, ?_, ?_⟩
  · rintro rfl; exact absurd h (by decide)
  · rintro rfl; exact absurd h (by decide)
  · rintro rfl; exact absurd h (by decide)
  · rintro rfl; exact absurd h (by decide)
  · rintro rfl; exact absurd h (by decide)
  · rintro rfl; exact absurd h (by decide)
  · rintro rfl; exact absurd h (by decide)
  · by_contra hw
    simp only [Bool.not_eq_false, isWs, Bool.or_eq_true, decide_eq_true_eq] at hw
    rcases hw with ((rfl | rfl) | rfl) | rfl <;> exact absurd h (by decide)

theorem parseValue_digits (f : Nat) (ds rest : List Char) (hne : ds ≠ [])
    (hall : ds.all isDigitC = true) (hrest : headDigit rest = false) :
    parseValue (f + 1) (ds ++ rest) = some (.num (Int.ofNat (digitsVal ds)), rest) := by
  obtain ⟨c, cs, rfl⟩ := List.exists_cons_of_ne_nil hne
  have hc : isDigitC c = true := by
    simp only [List.all_cons, Bool.and_eq_true] at hall
    exact hall.1
  have hf := isDigitC_facts c hc
  have htd : takeDigits (c :: (cs ++ rest)) = (c :: cs, rest) := by
    have h := takeDigits_append (c :: cs) rest hall hrest
    simpa using h
  rw [parseValue.eq_def]
  simp [skipWs, hf.1, hf.2.1, hf.2.2.1, hf.2.2.2.1, hf.2.2.2.2.1, hf.2.2.2.2.2.1,
    hf.2.2.2.2.2.2.1, hf.2.2.2.2.2.2.2, hc, htd]

/-! Concrete character expansions of the emitted text chunks and the
parses of the concrete object keys, used by the round-trip proofs. -/

theorem chars_q1 :
    chars "\x7b\n        \"query\": \""
      = lbrace :: '\n' :: ' ' :: ' ' :: ' ' :: ' ' :: ' ' :: ' ' :: ' ' :: ' ' :: '\"' :: 'q' :: 'u' :: 'e' :: 'r' :: 'y' :: '\"' :: ':' :: ' ' :: '\"' :: [] := rfl

theorem chars_q2 :
    chars "\",\n        \"rows_read\": "
      = '\"' :: ',' :: '\n' :: ' ' :: ' ' :: ' ' :: ' ' :: ' ' :: ' ' :: ' ' :: ' ' :: '\"' :: 'r' :: 'o' :: 'w' :: 's' :: '_' :: 'r' :: 'e' :: 'a' :: 'd' :: '\"' :: ':' :: ' ' :: [] := rfl

theorem chars_q3 :
    chars ",\n        \"rows_written\": "
      = ',' :: '\n' :: ' ' :: ' ' :: ' ' :: ' ' :: ' ' :: ' ' :: ' ' :: ' ' :: '\"' :: 'r' :: 'o' :: 'w' :: 's' :: '_' :: 'w' :: 'r' :: 'i' :: 't' :: 't' :: 'e' :: 'n' :: '\"' :: ':' :: ' ' :: [] := rfl

theorem chars_q4 :
    chars "\n      \x7d"
      = '\n' :: ' ' :: ' ' :: ' ' :: ' ' :: ' ' :: ' ' :: rbrace :: [] := rfl

theorem chars_mi :
    chars ",\n      "
      = ',' :: '\n' :: ' ' :: ' ' :: ' ' :: ' ' :: ' ' :: ' ' :: [] := rfl

theorem chars_a0 :
    chars "[]"
      = '[' :: ']' :: [] := rfl

theorem chars_a1 :
    chars "[\n      "
      = '[' :: '\n' :: ' ' :: ' ' :: ' ' :: ' ' :: ' ' :: ' ' :: [] := rfl

theorem chars_a2 :
    chars "\n    ]"
      = '\n' :: ' ' :: ' ' :: ' ' :: ' ' :: ']' :: [] := rfl

theorem chars_s1 :
    chars "\x7b\n  \"stats\": \x7b\n    \"replication_index\": "
      = lbrace :: '\n' :: ' ' :: ' ' :: '\"' :: 's' :: 't' :: 'a' :: 't' :: 's' :: '\"' :: ':' :: ' ' :: lbrace :: '\n' :: ' ' :: ' ' :: ' ' :: ' ' :: '\"' :: 'r' :: 'e' :: 'p' :: 'l' :: 'i' :: 'c' :: 'a' :: 't' :: 'i' :: 'o' :: 'n' :: '_' :: 'i' :: 'n' :: 'd' :: 'e' :: 'x' :: '\"' :: ':' :: ' ' :: [] := rfl

theorem chars_s2 :
    chars ",\n    \"rows_read_count\": "
      = ',' :: '\n' :: ' ' :: ' ' :: ' ' :: ' ' :: '\"' :: 'r' :: 'o' :: 'w' :: 's' :: '_' :: 'r' :: 'e' :: 'a' :: 'd' :: '_' :: 'c' :: 'o' :: 'u' :: 'n' :: 't' :: '\"' :: ':' :: ' ' :: [] := rfl

theorem chars_s3 :
    chars ",\n    \"rows_written_count\": "
      = ',' :: '\n' :: ' ' :: ' ' :: ' ' :: ' ' :: '\"' :: 'r' :: 'o' :: 'w' :: 's' :: '_' :: 'w' :: 'r' :: 'i' :: 't' :: 't' :: 'e' :: 'n' :: '_' :: 'c' :: 'o' :: 'u' :: 'n' :: 't' :: '\"' :: ':' :: ' ' :: [] := rfl

theorem chars_s4 :
    chars ",\n    \"storage_bytes_used\": "
      = ',' :: '\n' :: ' ' :: ' ' :: ' ' :: ' ' :: '\"' :: 's' :: 't' :: 'o' :: 'r' :: 'a' :: 'g' :: 'e' :: '_' :: 'b' :: 'y' :: 't' :: 'e' :: 's' :: '_' :: 'u' :: 's' :: 'e' :: 'd' :: '\"' :: ':' :: ' ' :: [] := rfl

theorem chars_s5 :
    chars ",\n    \"top_queries\": "
      = ',' :: '\n' :: ' ' :: ' ' :: ' ' :: ' ' :: '\"' :: 't' :: 'o' :: 'p' :: '_' :: 'q' :: 'u' :: 'e' :: 'r' :: 'i' :: 'e' :: 's' :: '\"' :: ':' :: ' ' :: [] := rfl

theorem chars_s6 :
    chars ",\n    \"write_requests_delegated\": "
      = ',' :: '\n' :: ' ' :: ' ' :: ' ' :: ' ' :: '\"' :: 'w' :: 'r' :: 'i' :: 't' :: 'e' :: '_' :: 'r' :: 'e' :: 'q' :: 'u' :: 'e' :: 's' :: 't' :: 's' :: '_' :: 'd' :: 'e' :: 'l' :: 'e' :: 'g' :: 'a' :: 't' :: 'e' :: 'd' :: '\"' :: ':' :: ' ' :: [] := rfl

theorem chars_s7 :
    chars "\n  \x7d,\n  \"success\": true\n\x7d"
      = '\n' :: ' ' :: ' ' :: rbrace :: ',' :: '\n' :: ' ' :: ' ' :: '\"' :: 's' :: 'u' :: 'c' :: 'c' :: 'e' :: 's' :: 's' :: '\"' :: ':' :: ' ' :: 't' :: 'r' :: 'u' :: 'e' :: '\n' :: rbrace :: [] := rfl

theorem chars_e1 :
    chars "\x7b\n  \"error\": \""
      = lbrace :: '\n' :: ' ' :: ' ' :: '\"' :: 'e' :: 'r' :: 'r' :: 'o' :: 'r' :: '\"' :: ':' :: ' ' :: '\"' :: [] := rfl

theorem chars_e2 :
    chars "\"\n\x7d"
      = '\"' :: '\n' :: rbrace :: [] := rfl

theorem key_query (tail : List Char) :
    parseStrBody ('q' :: 'u' :: 'e' :: 'r' :: 'y' :: '\"' :: tail) = some (['q', 'u', 'e', 'r', 'y'], tail) := by
  have h := parseStrBody_escList ['q', 'u', 'e', 'r', 'y'] tail
  simpa [escList, escChar] using h

theorem key_rows_read (tail : List Char) :
    parseStrBody ('r' :: 'o' :: 'w' :: 's' :: '_' :: 'r' :: 'e' :: 'a' :: 'd' :: '\"' :: tail) = some (['r', 'o', 'w', 's', '_', 'r', 'e', 'a', 'd'], tail) := by
  have h := parseStrBody_escList ['r', 'o', 'w', 's', '_', 'r', 'e', 'a', 'd'] tail
  simpa [escList, escChar] using h

theorem key_rows_written (tail : List Char) :
    parseStrBody ('r' :: 'o' :: 'w' :: 's' :: '_' :: 'w' :: 'r' :: 'i' :: 't' :: 't' :: 'e' :: 'n' :: '\"' :: tail) = some (['r', 'o', 'w', 's', '_', 'w', 'r', 'i', 't', 't', 'e', 'n'], tail) := by
  have h := parseStrBody_escList ['r', 'o', 'w', 's', '_', 'w', 'r', 'i', 't', 't', 'e', 'n'] tail
  simpa [escList, escChar] using h

theorem key_stats (tail : List Char) :
    parseStrBody ('s' :: 't' :: 'a' :: 't' :: 's' :: '\"' :: tail) = some (['s', 't', 'a', 't', 's'], tail) := by
  have h := parseStrBody_escList ['s', 't', 'a', 't', 's'] tail
  simpa [escList, escChar] using h

theorem key_replication_index (tail : List Char) :
    parseStrBody ('r' :: 'e' :: 'p' :: 'l' :: 'i' :: 'c' :: 'a' :: 't' :: 'i' :: 'o' :: 'n' :: '_' :: 'i' :: 'n' :: 'd' :: 'e' :: 'x' :: '\"' :: tail) = some (['r', 'e', 'p', 'l', 'i', 'c', 'a', 't', 'i', 'o', 'n', '_', 'i', 'n', 'd', 'e', 'x'], tail) := by
  have h := parseStrBody_escList ['r', 'e', 'p', 'l', 'i', 'c', 'a', 't', 'i', 'o', 'n', '_', 'i', 'n', 'd', 'e', 'x'] tail
  simpa [escList, escChar] using h

theorem key_rows_read_count (tail : List Char) :
    parseStrBody ('r' :: 'o' :: 'w' :: 's' :: '_' :: 'r' :: 'e' :: 'a' :: 'd' :: '_' :: 'c' :: 'o' :: 'u' :: 'n' :: 't' :: '\"' :: tail) = some (['r', 'o', 'w', 's', '_', 'r', 'e', 'a', 'd', '_', 'c', 'o', 'u', 'n', 't'], tail) := by
  have h := parseStrBody_escList ['r', 'o', 'w', 's', '_', 'r', 'e', 'a', 'd', '_', 'c', 'o', 'u', 'n', 't'] tail
  simpa [escList, escChar] using h

theorem key_rows_written_count (tail : List Char) :
    parseStrBody ('r' :: 'o' :: 'w' :: 's' :: '_' :: 'w' :: 'r' :: 'i' :: 't' :: 't' :: 'e' :: 'n' :: '_' :: 'c' :: 'o' :: 'u' :: 'n' :: 't' :: '\"' :: tail) = some (['r', 'o', 'w', 's', '_', 'w', 'r', 'i', 't', 't', 'e', 'n', '_', 'c', 'o', 'u', 'n', 't'], tail) := by
  have h := parseStrBody_escList ['r', 'o', 'w', 's', '_', 'w', 'r', 'i', 't', 't', 'e', 'n', '_', 'c', 'o', 'u', 'n', 't'] tail
  simpa [escList, escChar] using h

theorem key_storage_bytes_used (tail : List Char) :
    parseStrBody ('s' :: 't' :: 'o' :: 'r' :: 'a' :: 'g' :: 'e' :: '_' :: 'b' :: 'y' :: 't' :: 'e' :: 's' :: '_' :: 'u' :: 's' :: 'e' :: 'd' :: '\"' :: tail) = some (['s', 't', 'o', 'r', 'a', 'g', 'e', '_', 'b', 'y', 't', 'e', 's', '_', 'u', 's', 'e', 'd'], tail) := by
  have h := parseStrBody_escList ['s', 't', 'o', 'r', 'a', 'g', 'e', '_', 'b', 'y', 't', 'e', 's', '_', 'u', 's', 'e', 'd'] tail
  simpa [escList, escChar] using h

theorem key_top_queries (tail : List Char) :
    parseStrBody ('t' :: 'o' :: 'p' :: '_' :: 'q' :: 'u' :: 'e' :: 'r' :: 'i' :: 'e' :: 's' :: '\"' :: tail) = some (['t', 'o', 'p', '_', 'q', 'u', 'e', 'r', 'i', 'e', 's'], tail) := by
  have h := parseStrBody_escList ['t', 'o', 'p', '_', 'q', 'u', 'e', 'r', 'i', 'e', 's'] tail
  simpa [escList, escChar] using h

theorem key_write_requests_delegated (tail : List Char) :
    parseStrBody ('w' :: 'r' :: 'i' :: 't' :: 'e' :: '_' :: 'r' :: 'e' :: 'q' :: 'u' :: 'e' :: 's' :: 't' :: 's' :: '_' :: 'd' :: 'e' :: 'l' :: 'e' :: 'g' :: 'a' :: 't' :: 'e' :: 'd' :: '\"' :: tail) = some (['w', 'r', 'i', 't', 'e', '_', 'r', 'e', 'q', 'u', 'e', 's', 't', 's', '_', 'd', 'e', 'l', 'e', 'g', 'a', 't', 'e', 'd'], tail) := by
  have h := parseStrBody_escList ['w', 'r', 'i', 't', 'e', '_', 'r', 'e', 'q', 'u', 'e', 's', 't', 's', '_', 'd', 'e', 'l', 'e', 'g', 'a', 't', 'e', 'd'] tail
  simpa [escList, escChar] using h

theorem key_success (tail : List Char) :
    parseStrBody ('s' :: 'u' :: 'c' :: 'c' :: 'e' :: 's' :: 's' :: '\"' :: tail) = some (['s', 'u', 'c', 'c', 'e', 's', 's'], tail) := by
  have h := parseStrBody_escList ['s', 'u', 'c', 'c', 'e', 's', 's'] tail
  simpa [escList, escChar] using h

theorem key_error (tail : List Char) :
    parseStrBody ('e' :: 'r' :: 'r' :: 'o' :: 'r' :: '\"' :: tail) = some (['e', 'r', 'r', 'o', 'r'], tail) := by
  have h := parseStrBody_escList ['e', 'r', 'r', 'o', 'r'] tail
  simpa [escList, escChar] using h


theorem parseValue_natChars (f n : Nat) (rest : List Char)
    (hrest : headDigit rest = false) :
    parseValue (f + 1) (natChars n ++ rest) = some (.num (Int.ofNat n), rest) := by
  rw [parseValue_digits f _ rest (natChars_ne_nil n) (natChars_all_digit n) hrest,
    digitsVal_natChars]

theorem parseValue_intChars (f : Nat) (i : Int) (rest : List Char)
    (hrest : headDigit rest = false) :
    parseValue (f + 1) (intChars i ++ rest) = some (.num i, rest) := by
  rw [intChars]
  by_cases h : i < 0
  · rw [if_pos h]
    simp only [List.cons_append]
    rw [parseValue.eq_def]
    have htd : takeDigits (natChars i.natAbs ++ rest) = (natChars i.natAbs, rest) :=
      takeDigits_append _ _ (natChars_all_digit _) hrest
    obtain ⟨c, cs, hsh⟩ := List.exists_cons_of_ne_nil (natChars_ne_nil i.natAbs)
    rw [hsh] at htd
    simp only [List.cons_append] at htd
    have hv : -((digitsVal (c :: cs) : Int)) = i := by
      rw [← hsh, digitsVal_natChars]
      omega
    rw [hsh]
    simp only [List.cons_append]
    simp [skipWs, isWs, lbrace]
    rw [htd]
    simp [hv]
  · rw [if_neg h]
    have hi : Int.ofNat i.toNat = i := by
      rw [Int.ofNat_eq_natCast]
      omega
    rw [parseValue_natChars f _ rest hrest, hi]

theorem parseValue_true (f : Nat) (rest : List Char) :
    parseValue (f + 1) ('t' :: 'r' :: 'u' :: 'e' :: rest) = some (.bool true, rest) := by
  rw [parseValue.eq_def]
  simp [skipWs, isWs, lbrace]

theorem string_mk_data (s : String) : String.mk s.data = s := rfl

theorem parseValue_str (f : Nat) (l tail : List Char) :
    parseValue (f + 1) ('"' :: (escList l ++ '"' :: tail))
      = some (.str (String.mk l), tail) := by
  rw [parseValue.eq_def]
  simp [skipWs, isWs, parseStrBody_escList]


theorem parseValue_ws (f : Nat) (pre s : List Char) (h : pre.all isWs = true) :
    parseValue f (pre ++ s) = parseValue f s := by
  induction pre with
  | nil => rfl
  | cons c cs ih =>
    simp only [List.all_cons, Bool.and_eq_true] at h
    have step : parseValue f (c :: (cs ++ s)) = parseValue f (cs ++ s) := by
      cases f with
      | zero => rfl
      | succ f =>
        rw [parseValue.eq_def, parseValue.eq_def]
        simp only [skipWs, h.1, if_true]
    rw [List.cons_append, step, ih h.2]


theorem mkstr_query : String.mk ['q', 'u', 'e', 'r', 'y'] = "query" := rfl
theorem mkstr_rows_read : String.mk ['r', 'o', 'w', 's', '_', 'r', 'e', 'a', 'd'] = "rows_read" := rfl
theorem mkstr_rows_written : String.mk ['r', 'o', 'w', 's', '_', 'w', 'r', 'i', 't', 't', 'e', 'n'] = "rows_written" := rfl
theorem mkstr_stats : String.mk ['s', 't', 'a', 't', 's'] = "stats" := rfl
theorem mkstr_replication_index : String.mk ['r', 'e', 'p', 'l', 'i', 'c', 'a', 't', 'i', 'o', 'n', '_', 'i', 'n', 'd', 'e', 'x'] = "replication_index" := rfl
theorem mkstr_rows_read_count : String.mk ['r', 'o', 'w', 's', '_', 'r', 'e', 'a', 'd', '_', 'c', 'o', 'u', 'n', 't'] = "rows_read_count" := rfl
theorem mkstr_rows_written_count : String.mk ['r', 'o', 'w', 's', '_', 'w', 'r', 'i', 't', 't', 'e', 'n', '_', 'c', 'o', 'u', 'n', 't'] = "rows_written_count" := rfl
theorem mkstr_storage_bytes_used : String.mk ['s', 't', 'o', 'r', 'a', 'g', 'e', '_', 'b', 'y', 't', 'e', 's', '_', 'u', 's', 'e', 'd'] = "storage_bytes_used" := rfl
theorem mkstr_top_queries : String.mk ['t', 'o', 'p', '_', 'q', 'u', 'e', 'r', 'i', 'e', 's'] = "top_queries" := rfl
theorem mkstr_write_requests_delegated : String.mk ['w', 'r', 'i', 't', 'e', '_', 'r', 'e', 'q', 'u', 'e', 's', 't', 's', '_', 'd', 'e', 'l', 'e', 'g', 'a', 't', 'e', 'd'] = "write_requests_delegated" := rfl
theorem mkstr_success : String.mk ['s', 'u', 'c', 'c', 'e', 's', 's'] = "success" := rfl
theorem mkstr_error : String.mk ['e', 'r', 'r', 'o', 'r'] = "error" := rfl

theorem parseValue_sp_str (f : Nat) (l tail : List Char) :
    parseValue (f + 1) (' ' :: '"' :: (escList l ++ '"' :: tail))
      = some (.str (String.mk l), tail) := by
  have h := parseValue_ws (f + 1) [' '] ('"' :: (escList l ++ '"' :: tail)) (by decide)
  simp only [List.cons_append, List.nil_append] at h
  rw [h, parseValue_str]

theorem parseValue_sp_intChars (f : Nat) (i : Int) (rest : List Char)
    (hrest : headDigit rest = false) :
    parseValue (f + 1) (' ' :: (intChars i ++ rest)) = some (.num i, rest) := by
  have h := parseValue_ws (f + 1) [' '] (intChars i ++ rest) (by decide)
  simp only [List.cons_append, List.nil_append] at h
  rw [h, parseValue_intChars _ _ _ hrest]

theorem parseValue_sp_natChars (f n : Nat) (rest : List Char)
    (hrest : headDigit rest = false) :
    parseValue (f + 1) (' ' :: (natChars n ++ rest)) = some (.num (Int.ofNat n), rest) := by
  have h := parseValue_ws (f + 1) [' '] (natChars n ++ rest) (by decide)
  simp only [List.cons_append, List.nil_append] at h
  rw [h, parseValue_natChars _ _ _ hrest]

theorem parseValue_sp_true (f : Nat) (rest : List Char) :
    parseValue (f + 1) (' ' :: 't' :: 'r' :: 'u' :: 'e' :: rest)
      = some (.bool true, rest) := by
  have h := parseValue_ws (f + 1) [' '] ('t' :: 'r' :: 'u' :: 'e' :: rest) (by decide)
  simp only [List.cons_append, List.nil_append] at h
  rw [h, parseValue_true]

theorem parseValue_objHead (f : Nat) (s : List Char) :
    parseValue (f + 1) (lbrace :: s) = parseObj f s := by
  rw [parseValue.eq_def]
  simp [skipWs, isWs, lbrace]

theorem parseValue_arrHead (f : Nat) (s : List Char) :
    parseValue (f + 1) ('[' :: s) = parseArr f s := by
  rw [parseValue.eq_def]
  simp [skipWs, isWs]

theorem parseValue_sp_arrHead (f : Nat) (s : List Char) :
    parseValue (f + 1) (' ' :: '[' :: s) = parseArr f s := by
  have h := parseValue_ws (f + 1) [' '] ('[' :: s) (by decide)
  simp only [List.cons_append, List.nil_append] at h
  rw [h, parseValue_arrHead]

theorem parseValue_sp_objHead (f : Nat) (s : List Char) :
    parseValue (f + 1) (' ' :: lbrace :: s) = parseObj f s := by
  have h := parseValue_ws (f + 1) [' '] (lbrace :: s) (by decide)
  simp only [List.cons_append, List.nil_append] at h
  rw [h, parseValue_objHead]

theorem parseObj_field (f : Nat) (ws key s : List Char) (hws : ws.all isWs = true)
    (hkey : ∀ t : List Char, parseStrBody (key ++ '"' :: t) = some (key, t)) :
    parseObj (f + 1) (ws ++ ('"' :: (key ++ '"' :: ':' :: s)))
      = (parseValue f s).bind (fun vp =>
          (parseObjRest f vp.2).map (fun fp =>
            (Json.obj ((String.mk key, vp.1) :: fp.1), fp.2))) := by
  have hskip := fun t => skipWs_append ws t hws
  rw [parseObj.eq_def]
  simp [hskip, skipWs, isWs, rbrace, hkey]

theorem parseObjRest_field (f : Nat) (ws key s : List Char) (hws : ws.all isWs = true)
    (hkey : ∀ t : List Char, parseStrBody (key ++ '"' :: t) = some (key, t)) :
    parseObjRest (f + 1) (',' :: (ws ++ ('"' :: (key ++ '"' :: ':' :: s))))
      = (parseValue f s).bind (fun vp =>
          (parseObjRest f vp.2).map (fun fp => ((String.mk key, vp.1) :: fp.1, fp.2))) := by
  have hskip := fun t => skipWs_append ws t hws
  rw [parseObjRest.eq_def]
  simp [hskip, skipWs, isWs, rbrace, hkey]

theorem parseObjRest_close (f : Nat) (ws rest : List Char) (hws : ws.all isWs = true) :
    parseObjRest (f + 1) (ws ++ rbrace :: rest) = some ([], rest) := by
  have hskip := fun t => skipWs_append ws t hws
  rw [parseObjRest.eq_def]
  simp [hskip, skipWs, isWs, rbrace]

theorem parseArr_close (f : Nat) (rest : List Char) :
    parseArr (f + 1) (']' :: rest) = some (Json.arr [], rest) := by
  rw [parseArr.eq_def]
  simp [skipWs, isWs]

theorem parseArr_first (f : Nat) (ws s : List Char) (hws : ws.all isWs = true) :
    parseArr (f + 1) (ws ++ lbrace :: s)
      = (parseValue f (lbrace :: s)).bind (fun p =>
          (parseArrRest f p.2).map (fun q2 => (Json.arr (p.1 :: q2.1), q2.2))) := by
  have hskip := fun t => skipWs_append ws t hws
  rw [parseArr.eq_def]
  simp [hskip, skipWs, isWs, lbrace]

theorem parseArrRest_close (f : Nat) (ws rest : List Char) (hws : ws.all isWs = true) :
    parseArrRest (f + 1) (ws ++ ']' :: rest) = some ([], rest) := by
  have hskip := fun t => skipWs_append ws t hws
  rw [parseArrRest.eq_def]
  simp [hskip, skipWs, isWs]

theorem parseArrRest_comma (f : Nat) (s : List Char) :
    parseArrRest (f + 1) (',' :: s)
      = (parseValue f s).bind (fun p =>
          (parseArrRest f p.2).map (fun q2 => (p.1 :: q2.1, q2.2))) := by
  rw [parseArrRest.eq_def]
  simp [skipWs, isWs]

theorem parseValue_topQuery (e : Nat) (q : TopQuery) (rest : List Char) :
    parseValue (e + 1 + 1 + 1 + 1 + 1) (topQueryChars q ++ rest)
      = some (topQueryToJson q, rest) := by
  rw [topQueryChars]
  simp only [chars_q1, chars_q2, chars_q3, chars_q4, escChars, List.append_assoc,
    List.cons_append, List.nil_append]
  rw [parseValue_objHead]
  have F1 := fun s => parseObj_field (e + 1 + 1 + 1)
    ['\n', ' ', ' ', ' ', ' ', ' ', ' ', ' ', ' '] ['q', 'u', 'e', 'r', 'y'] s
    (by decide) key_query
  simp only [List.cons_append, List.nil_append] at F1
  rw [F1, parseValue_sp_str]
  simp only [Option.some_bind]
  have F2 := fun s => parseObjRest_field (e + 1 + 1)
    ['\n', ' ', ' ', ' ', ' ', ' ', ' ', ' ', ' ']
    ['r', 'o', 'w', 's', '_', 'r', 'e', 'a', 'd'] s (by decide) key_rows_read
  simp only [List.cons_append, List.nil_append] at F2
  rw [F2, parseValue_sp_intChars _ _ _ (by rfl)]
  simp only [Option.some_bind]
  have F3 := fun s => parseObjRest_field (e + 1)
    ['\n', ' ', ' ', ' ', ' ', ' ', ' ', ' ', ' ']
    ['r', 'o', 'w', 's', '_', 'w', 'r', 'i', 't', 't', 'e', 'n'] s (by decide)
    key_rows_written
  simp only [List.cons_append, List.nil_append] at F3
  rw [F3, parseValue_sp_intChars _ _ _ (by rfl)]
  simp only [Option.some_bind]
  have C1 := fun rest2 => parseObjRest_close e
    ['\n', ' ', ' ', ' ', ' ', ' ', ' '] rest2 (by decide)
  simp only [List.cons_append, List.nil_append] at C1
  rw [C1]
  simp [mkstr_query, mkstr_rows_read, mkstr_rows_written, topQueryToJson, string_mk_data]


/-- Tail of the rendered `TopQuery` object after its opening brace. -/
def topQueryTail (q : TopQuery) : List Char :=
  chars "\n        \"query\": \"" ++ escChars q.query
    ++ chars "\",\n        \"rows_read\": " ++ intChars q.rows_read
    ++ chars ",\n        \"rows_written\": " ++ intChars q.rows_written
    ++ chars "\n      \x7d"

theorem topQueryChars_eq_cons (q : TopQuery) :
    topQueryChars q = lbrace :: topQueryTail q := rfl

theorem parseValue_topQueryTail (e : Nat) (q : TopQuery) (rest : List Char) :
    parseValue (e + 1 + 1 + 1 + 1 + 1) (lbrace :: (topQueryTail q ++ rest))
      = some (topQueryToJson q, rest) := by
  have h := parseValue_topQuery e q rest
  rw [topQueryChars_eq_cons, List.cons_append] at h
  exact h

theorem parseValue_ws_topQuery (e : Nat) (q : TopQuery) (rest : List Char) :
    parseValue (e + 1 + 1 + 1 + 1 + 1)
      ('\n' :: ' ' :: ' ' :: ' ' :: ' ' :: ' ' :: ' ' :: (topQueryChars q ++ rest))
      = some (topQueryToJson q, rest) := by
  have h := parseValue_ws (e + 1 + 1 + 1 + 1 + 1) ['\n', ' ', ' ', ' ', ' ', ' ', ' ']
    (topQueryChars q ++ rest) (by decide)
  simp only [List.cons_append, List.nil_append] at h
  rw [h, parseValue_topQuery]

theorem parseArrRest_moreItems (qs : List TopQuery) (extra : Nat) (rest : List Char) :
    parseArrRest (extra + 6 * qs.length + 1)
      (moreItemsChars qs ++ ('\n' :: ' ' :: ' ' :: ' ' :: ' ' :: ']' :: rest))
      = some (qs.map topQueryToJson, rest) := by
  induction qs generalizing extra with
  | nil =>
    have C := fun r2 => parseArrRest_close (extra + 6 * ([] : List TopQuery).length)
      ['\n', ' ', ' ', ' ', ' '] r2 (by decide)
    simp only [List.cons_append, List.nil_append] at C
    rw [moreItemsChars, List.nil_append, C]
    simp
  | cons q qs2 ih =>
    rw [moreItemsChars]
    simp only [chars_mi, List.append_assoc, List.cons_append, List.nil_append]
    rw [parseArrRest_comma]
    rw [show extra + 6 * (q :: qs2).length
        = (extra + 6 * qs2.length + 1) + 1 + 1 + 1 + 1 + 1 from by
      simp only [List.length_cons]
      ring]
    rw [parseValue_ws_topQuery]
    simp only [Option.some_bind]
    rw [show (extra + 6 * qs2.length + 1) + 1 + 1 + 1 + 1 + 1
        = (extra + 5) + 6 * qs2.length + 1 from by ring]
    rw [ih (extra + 5)]
    simp

theorem parseValue_topQueries (qs : List TopQuery) (extra : Nat) (rest : List Char) :
    parseValue (extra + 6 * qs.length + 1 + 1) (topQueriesChars qs ++ rest)
      = some (.arr (qs.map topQueryToJson), rest) := by
  cases qs with
  | nil =>
    rw [topQueriesChars]
    simp only [chars_a0, List.cons_append, List.nil_append]
    rw [parseValue_arrHead, parseArr_close]
    simp
  | cons q qs2 =>
    rw [topQueriesChars]
    simp only [chars_a1, chars_a2, List.append_assoc, List.cons_append, List.nil_append]
    rw [parseValue_arrHead]
    rw [topQueryChars_eq_cons, List.cons_append]
    have A := fun t => parseArr_first (extra + 6 * (q :: qs2).length)
      ['\n', ' ', ' ', ' ', ' ', ' ', ' '] t (by decide)
    simp only [List.cons_append, List.nil_append] at A
    rw [A]
    rw [show extra + 6 * (q :: qs2).length
        = (extra + 6 * qs2.length + 1) + 1 + 1 + 1 + 1 + 1 from by
      simp only [List.length_cons]
      ring]
    rw [parseValue_topQueryTail]
    simp only [Option.some_bind]
    rw [show (extra + 6 * qs2.length + 1) + 1 + 1 + 1 + 1 + 1
        = (extra + 5) + 6 * qs2.length + 1 from by ring]
    rw [parseArrRest_moreItems]
    simp

theorem parseValue_sp_topQueries (qs : List TopQuery) (extra : Nat) (rest : List Char) :
    parseValue (extra + 6 * qs.length + 1 + 1) (' ' :: (topQueriesChars qs ++ rest))
      = some (.arr (qs.map topQueryToJson), rest) := by
  have h := parseValue_ws (extra + 6 * qs.length + 1 + 1) [' ']
    (topQueriesChars qs ++ rest) (by decide)
  simp only [List.cons_append, List.nil_append] at h
  rw [h, parseValue_topQueries]


theorem parseValue_statsDoc (s : NamespaceStats) (extra : Nat) (rest : List Char) :
    parseValue (extra + 6 * s.top_queries.length + 1 + 1 + 1 + 1 + 1 + 1 + 1 + 1 + 1 + 1)
      (statsJsonChars s ++ rest) = some (statsSuccessJson s, rest) := by
  rw [statsJsonChars]
  simp only [chars_s1, chars_s2, chars_s3, chars_s4, chars_s5, chars_s6, chars_s7,
    List.append_assoc, List.cons_append, List.nil_append]
  rw [parseValue_objHead]
  have Fst := fun t => parseObj_field
    (extra + 6 * s.top_queries.length + 1 + 1 + 1 + 1 + 1 + 1 + 1 + 1)
    ['\n', ' ', ' '] ['s', 't', 'a', 't', 's'] t (by decide) key_stats
  simp only [List.cons_append, List.nil_append] at Fst
  rw [Fst, parseValue_sp_objHead]
  have Fri := fun t => parseObj_field
    (extra + 6 * s.top_queries.length + 1 + 1 + 1 + 1 + 1 + 1)
    ['\n', ' ', ' ', ' ', ' ']
    ['r', 'e', 'p', 'l', 'i', 'c', 'a', 't', 'i', 'o', 'n', '_', 'i', 'n', 'd', 'e', 'x']
    t (by decide) key_replication_index
  simp only [List.cons_append, List.nil_append] at Fri
  rw [Fri, parseValue_sp_natChars _ _ _ (by rfl)]
  simp only [Option.some_bind]
  have Frrc := fun t => parseObjRest_field
    (extra + 6 * s.top_queries.length + 1 + 1 + 1 + 1 + 1)
    ['\n', ' ', ' ', ' ', ' ']
    ['r', 'o', 'w', 's', '_', 'r', 'e', 'a', 'd', '_', 'c', 'o', 'u', 'n', 't']
    t (by decide) key_rows_read_count
  simp only [List.cons_append, List.nil_append] at Frrc
  rw [Frrc, parseValue_sp_natChars _ _ _ (by rfl)]
  simp only [Option.some_bind]
  have Frwc := fun t => parseObjRest_field
    (extra + 6 * s.top_queries.length + 1 + 1 + 1 + 1)
    ['\n', ' ', ' ', ' ', ' ']
    ['r', 'o', 'w', 's', '_', 'w', 'r', 'i', 't', 't', 'e', 'n', '_', 'c', 'o', 'u', 'n', 't']
    t (by decide) key_rows_written_count
  simp only [List.cons_append, List.nil_append] at Frwc
  rw [Frwc, parseValue_sp_natChars _ _ _ (by rfl)]
  simp only [Option.some_bind]
  have Fsbu := fun t => parseObjRest_field
    (extra + 6 * s.top_queries.length + 1 + 1 + 1)
    ['\n', ' ', ' ', ' ', ' ']
    ['s', 't', 'o', 'r', 'a', 'g', 'e', '_', 'b', 'y', 't', 'e', 's', '_', 'u', 's', 'e', 'd']
    t (by decide) key_storage_bytes_used
  simp only [List.cons_append, List.nil_append] at Fsbu
  rw [Fsbu, parseValue_sp_natChars _ _ _ (by rfl)]
  simp only [Option.some_bind]
  have Ftq := fun t => parseObjRest_field
    (extra + 6 * s.top_queries.length + 1 + 1)
    ['\n', ' ', ' ', ' ', ' ']
    ['t', 'o', 'p', '_', 'q', 'u', 'e', 'r', 'i', 'e', 's']
    t (by decide) key_top_queries
  simp only [List.cons_append, List.nil_append] at Ftq
  rw [Ftq, parseValue_sp_topQueries]
  simp only [Option.some_bind]
  have Fwrd := fun t => parseObjRest_field
    (extra + 6 * s.top_queries.length + 1)
    ['\n', ' ', ' ', ' ', ' ']
    ['w', 'r', 'i', 't', 'e', '_', 'r', 'e', 'q', 'u', 'e', 's', 't', 's', '_',
      'd', 'e', 'l', 'e', 'g', 'a', 't', 'e', 'd']
    t (by decide) key_write_requests_delegated
  simp only [List.cons_append, List.nil_append] at Fwrd
  rw [Fwrd, parseValue_sp_natChars _ _ _ (by rfl)]
  simp only [Option.some_bind]
  have Cin := fun r2 => parseObjRest_close (extra + 6 * s.top_queries.length)
    ['\n', ' ', ' '] r2 (by decide)
  simp only [List.cons_append, List.nil_append] at Cin
  rw [Cin]
  simp only [Option.map_some', Option.some_bind]
  have Fsu := fun t => parseObjRest_field
    (extra + 6 * s.top_queries.length + 1 + 1 + 1 + 1 + 1 + 1 + 1)
    ['\n', ' ', ' '] ['s', 'u', 'c', 'c', 'e', 's', 's'] t (by decide) key_success
  simp only [List.cons_append, List.nil_append] at Fsu
  rw [Fsu, parseValue_sp_true]
  simp only [Option.some_bind]
  have Cout := fun r2 => parseObjRest_close
    (extra + 6 * s.top_queries.length + 1 + 1 + 1 + 1 + 1 + 1)
    ['\n'] r2 (by decide)
  simp only [List.cons_append, List.nil_append] at Cout
  rw [Cout]
  simp [statsSuccessJson, statsSuccessFields, statsToJson, mkstr_stats, mkstr_success,
    mkstr_replication_index, mkstr_rows_read_count, mkstr_rows_written_count,
    mkstr_storage_bytes_used, mkstr_top_queries, mkstr_write_requests_delegated]

theorem parseValue_errorDoc (e : ServerError) (extra : Nat) (rest : List Char) :
    parseValue (extra + 1 + 1 + 1) (errorJsonChars e ++ rest)
      = some (.obj [("error", .str e.error)], rest) := by
  rw [errorJsonChars]
  simp only [chars_e1, chars_e2, escChars, List.append_assoc, List.cons_append,
    List.nil_append]
  rw [parseValue_objHead]
  have F := fun t => parseObj_field (extra + 1) ['\n', ' ', ' ']
    ['e', 'r', 'r', 'o', 'r'] t (by decide) key_error
  simp only [List.cons_append, List.nil_append] at F
  rw [F, parseValue_sp_str]
  simp only [Option.some_bind]
  have C := fun r2 => parseObjRest_close extra ['\n'] r2 (by decide)
  simp only [List.cons_append, List.nil_append] at C
  rw [C]
  simp [mkstr_error, string_mk_data]


theorem data_mk (l : List Char) : (String.mk l).data = l := rfl

theorem moreItemsChars_length_ge (qs : List TopQuery) :
    6 * qs.length ≤ (moreItemsChars qs).length := by
  induction qs with
  | nil => simp [moreItemsChars]
  | cons q qs ih =>
    simp only [moreItemsChars, chars_mi, List.cons_append, List.nil_append,
      List.length_append, List.length_cons, List.length_nil]
    simp only [List.length_append] at ih ⊢
    omega

theorem topQueriesChars_length_ge (qs : List TopQuery) :
    6 * qs.length ≤ (topQueriesChars qs).length := by
  cases qs with
  | nil => simp [topQueriesChars, chars_a0]
  | cons q qs2 =>
    have h := moreItemsChars_length_ge qs2
    simp only [topQueriesChars, chars_a1, chars_a2, List.cons_append, List.nil_append,
      List.length_append, List.length_cons, List.length_nil]
    omega

theorem statsJsonChars_length_ge (s : NamespaceStats) :
    6 * s.top_queries.length + 9 ≤ (statsJsonChars s).length := by
  have h := topQueriesChars_length_ge s.top_queries
  rw [statsJsonChars]
  simp only [chars_s1, chars_s2, chars_s3, chars_s4, chars_s5, chars_s6, chars_s7,
    List.cons_append, List.nil_append, List.length_append, List.length_cons,
    List.length_nil]
  omega

theorem errorJsonChars_length_ge (e : ServerError) : 2 ≤ (errorJsonChars e).length := by
  rw [errorJsonChars]
  simp only [chars_e1, chars_e2, List.cons_append, List.nil_append, List.length_append,
    List.length_cons, List.length_nil]
  omega

theorem parseJson_statsJsonText (s : NamespaceStats) :
    parseJson (statsJsonText s) = some (statsSuccessJson s) := by
  have hlen := statsJsonChars_length_ge s
  obtain ⟨extra, hx⟩ : ∃ extra, (statsJsonChars s).length + 1
      = extra + 6 * s.top_queries.length + 1 + 1 + 1 + 1 + 1 + 1 + 1 + 1 + 1 + 1 :=
    ⟨(statsJsonChars s).length + 1 - (6 * s.top_queries.length + 10), by omega⟩
  have hdoc := parseValue_statsDoc s extra []
  rw [List.append_nil] at hdoc
  simp only [parseJson, statsJsonText, data_mk]
  rw [hx, hdoc]
  rfl

theorem parseJson_errorJsonText (e : ServerError) :
    parseJson (errorJsonText e) = some (.obj [("error", .str e.error)]) := by
  have hlen := errorJsonChars_length_ge e
  obtain ⟨extra, hx⟩ : ∃ extra, (errorJsonChars e).length + 1 = extra + 1 + 1 + 1 :=
    ⟨(errorJsonChars e).length + 1 - 3, by omega⟩
  have hdoc := parseValue_errorDoc e extra []
  rw [List.append_nil] at hdoc
  simp only [parseJson, errorJsonText, data_mk]
  rw [hx, hdoc]
  rfl

theorem parseJson_successJsonText :
    parseJson successJsonText = some (.obj [("success", .bool true)]) := rfl


/-! ## Claim theorems -/

/-- C9: for every operation and all inputs, the request URL is exactly the
string interpolation of the base URL with the documented path, with no
escaping or validation of the names. -/
theorem urls_are_plain_interpolation (base ns fromNs toNs : String) :
    create_namespace_url base ns = base ++ "/v1/namespaces/" ++ ns ++ "/create" ∧
    delete_namespace_url base ns = base ++ "/v1/namespaces/" ++ ns ∧
    fork_namespace_url base fromNs toNs
      = base ++ "/v1/namespaces/" ++ fromNs ++ "/fork/" ++ toNs ∧
    namespace_stats_url base ns = base ++ "/v1/namespaces/" ++ ns ++ "/stats" ∧
    namespace_config_url base ns = base ++ "/v1/namespaces/" ++ ns ++ "/config" := by
  refine ⟨?_, ?_, ?_, ?_, ?_⟩ <;>
    simp [create_namespace_url, delete_namespace_url, fork_namespace_url,
      namespace_stats_url, namespace_config_url, String.append_assoc,
      String.append_empty, String.empty_append, toString]

/-- C10: in Json format the rendered `ServerError` goes to standard output
through the guarded `write_str`; only Normal format sends the message to the
error stream. -/
theorem server_error_streams (e : ServerError) :
    print_server_error e .json = .exited (-1) [⟨.viaWriteStr, errorJsonText e⟩] ∧
    streamOf .viaWriteStr = .stdout ∧
    writeFailureBehavior .viaWriteStr = .exitZero ∧
    print_server_error e .normal = .exited (-1) [⟨.viaEprintln, "Error: " ++ e.error⟩] ∧
    streamOf .viaEprintln = .stderr :=
  ⟨rfl, rfl, rfl, rfl, rfl⟩

/-- C2, counterexample: on a 2xx response (status 200), `set_namespace_config`
still returns an absent result, contradicting the claimed present-on-success
contract. -/
theorem set_config_success_is_absent :
    is_success 200 = true ∧ (set_namespace_config (some ⟨200, ""⟩)).2 = none :=
  ⟨rfl, rfl⟩

/-- C2, amended: `get_namespace_config` follows the absent-on-failure
contract (present exactly when the call succeeds with 2xx and the body
deserializes as `Config`), but `set_namespace_config` returns an absent
result on every invocation, success included. -/
theorem config_presence_contract (resp : Option Response) :
    (get_namespace_config resp).2
      = (resp.bind fun r => if is_success r.status then configFromBody r.body else none) ∧
    ((get_namespace_config resp).2.isSome
      ↔ ∃ r, resp = some r ∧ is_success r.status = true ∧ (configFromBody r.body).isSome) ∧
    (set_namespace_config resp).2 = none := by
  refine ⟨?_, ?_, ?_⟩
  · cases resp with
    | none => rfl
    | some r =>
      simp only [Option.some_bind]
      by_cases hs : is_success r.status
      · simp only [get_namespace_config, hs, Bool.not_true, Bool.false_eq_true,
          if_false, if_true]
        cases configFromBody r.body <;> rfl
      · simp [get_namespace_config, hs]
  · cases resp with
    | none => simp [get_namespace_config]
    | some r =>
      by_cases hs : is_success r.status
      · simp only [get_namespace_config, hs, Bool.not_true, Bool.false_eq_true, if_false]
        cases hc : configFromBody r.body <;> simp [hc, hs]
      · simp [get_namespace_config, hs]
  · cases resp with
    | none => rfl
    | some r => by_cases hs : is_success r.status <;> simp [set_namespace_config, hs]

/-- C3, counterexample: the write performed by `print_success` in Normal
format goes through the bare `println!` macro, whose failure crashes the
process instead of terminating silently with exit status 0 — the
broken-pipe guard is not uniform across formats. -/
theorem normal_success_write_unguarded :
    print_success .normal = [⟨.viaPrintln, "Success"⟩] ∧
    writeFailureBehavior .viaPrintln = .crash ∧
    writeFailureBehavior .viaWriteStr = .exitZero :=
  ⟨rfl, rfl, rfl⟩

/-- C3, amended: the exit-0-on-write-failure guard applies exactly to writes
performed through `write_str`, which carries every Json-format rendering
(stats, success, server error); Normal-format renderings and the stats/config
failure diagnostic use bare `println!`/`eprintln!`, which crash on a failed
write. -/
theorem write_guard_covers_json_output (st : NamespaceStats) (e : ServerError) (body : String) :
    writeFailureBehavior .viaWriteStr = .exitZero ∧
    (print_stats st .json).map OutputAction.sink = [.viaWriteStr] ∧
    (print_success .json).map OutputAction.sink = [.viaWriteStr] ∧
    (outputsOf (print_server_error e .json)).map OutputAction.sink = [.viaWriteStr] ∧
    writeFailureBehavior .viaPrintln = .crash ∧
    writeFailureBehavior .viaEprintln = .crash ∧
    (print_stats st .normal).all (fun a => a.sink == .viaPrintln) = true ∧
    (print_success .normal).map OutputAction.sink = [.viaPrintln] ∧
    (outputsOf (print_server_error e .normal)).map OutputAction.sink = [.viaEprintln] ∧
    (response_diag body).sink = .viaPrintln := by
  refine ⟨rfl, rfl, rfl, rfl, rfl, rfl, ?_, rfl, rfl, rfl⟩
  cases h : st.top_queries with
  | nil => simp [print_stats, h]
  | cons q qs =>
    simp only [print_stats, h, List.all_eq_true]
    intro x hx
    simp only [List.isEmpty_cons, Bool.false_eq_true, if_false, List.mem_append,
      List.mem_cons, List.mem_map, List.not_mem_nil, or_false] at hx
    rcases hx with (rfl | rfl | rfl | rfl | rfl) | (rfl | ⟨p, -, rfl⟩) <;> rfl

/-- C5: Normal-format stats rendering is a fixed function of the value —
exactly the five scalar lines in their fixed order, followed, only when
`top_queries` is non-empty, by the header and a zero-indexed enumerated
line per entry showing rows-read, rows-written and query text. -/
theorem normal_stats_rendering_shape (st : NamespaceStats) :
    print_stats st .normal =
      [⟨.viaPrintln, "Rows Read: " ++ toString st.rows_read_count⟩,
       ⟨.viaPrintln, "Rows Written: " ++ toString st.rows_written_count⟩,
       ⟨.viaPrintln, "Storage Used (B): " ++ toString st.storage_bytes_used⟩,
       ⟨.viaPrintln, "Write Requests Delegated: " ++ toString st.write_requests_delegated⟩,
       ⟨.viaPrintln, "Replication Index: " ++ toString st.replication_index⟩]
      ++ (if st.top_queries = [] then []
          else ⟨.viaPrintln, "Top Queries (RR = Rows Read : RW = Rows Written):"⟩ ::
            ((List.range st.top_queries.length).zip st.top_queries).map (fun p =>
              ⟨.viaPrintln, toString p.1 ++ ": RR: " ++ toString p.2.rows_read
                ++ " RW: " ++ toString p.2.rows_written ++ " Query: " ++ p.2.query⟩)) ∧
    (st.top_queries = [] → (print_stats st .normal).length = 5) := by
  constructor
  · cases h : st.top_queries with
    | nil => simp [print_stats, h]
    | cons q qs => simp [print_stats, h, List.enum_eq_zip_range]
  · intro h
    simp [print_stats, h]

/-- C7: when `namespace_stats` produces no data — transport failure, non-2xx
status, or a 2xx body that does not deserialize as `NamespaceStats` — the
stats command aborts with the `expect` diagnostic instead of rendering or
exiting successfully, and those three causes are exactly the no-data cases. -/
theorem stats_failure_is_fatal (resp : Option Response) (format : PrintFormat)
    (ns : String) (include_top_queries : Bool)
    (h : (namespace_stats resp).2 = none) :
    runCommand (.stats ns include_top_queries) format resp
      = .crashed statsExpectMsg (namespace_stats resp).1 ∧
    ((namespace_stats resp).2 = none
      ↔ resp = none ∨ ∃ r, resp = some r ∧
          (is_success r.status = false ∨ statsFromBody r.body = none)) := by
  constructor
  · rcases hns : namespace_stats resp with ⟨diag, st⟩
    rw [hns] at h
    simp only at h
    subst h
    simp [runCommand, hns]
  · cases resp with
    | none => simp [namespace_stats]
    | some r =>
      by_cases hs : is_success r.status
      · simp only [namespace_stats, hs, Bool.not_true, Bool.false_eq_true, if_false]
        cases hst : statsFromBody r.body <;> simp [hst, hs]
      · simp [namespace_stats, hs]

/-- C7 witness: a transport failure (no response) makes the stats command
abort with the diagnostic. -/
theorem stats_failure_is_fatal_witness :
    (namespace_stats none).2 = none ∧
    runCommand (.stats "db1" true) .normal none = .crashed statsExpectMsg [] :=
  ⟨rfl, (stats_failure_is_fatal none .normal "db1" true rfl).1⟩

/-- C8: a non-2xx response whose body does not parse as `ServerError` makes
every lifecycle operation abort via `unwrap` (fails loudly), while the
stats/config operations degrade to an absent result without aborting. -/
theorem unparseable_error_body_contract (r : Response)
    (hstatus : is_success r.status = false)
    (hbody : serverErrorFromBody r.body = none) :
    create_namespace (some r) = .crashed unwrapMsg ∧
    delete_namespace (some r) = .crashed unwrapMsg ∧
    fork_namespace (some r) = .crashed unwrapMsg ∧
    (namespace_stats (some r)).2 = none ∧
    (get_namespace_config (some r)).2 = none ∧
    (set_namespace_config (some r)).2 = none := by
  simp [create_namespace, delete_namespace, fork_namespace, namespace_stats,
    get_namespace_config, set_namespace_config, hstatus, hbody]

/-- C8 witness: a 500 response with the unparseable body `oops`. -/
theorem unparseable_error_body_contract_witness :
    is_success 500 = false ∧
    serverErrorFromBody "oops" = none ∧
    create_namespace (some ⟨500, "oops"⟩) = .crashed unwrapMsg ∧
    (namespace_stats (some ⟨500, "oops"⟩)).2 = none :=
  ⟨rfl, rfl, (unparseable_error_body_contract ⟨500, "oops"⟩ rfl rfl).1,
    (unparseable_error_body_contract ⟨500, "oops"⟩ rfl rfl).2.2.2.1⟩

/-- C4: with `include_top_queries` false the retrieved stats value has its
`top_queries` cleared before rendering; with it true the value is rendered
unchanged. -/
theorem include_top_queries_clears (ns : String) (format : PrintFormat)
    (resp : Option Response) (st : NamespaceStats) (diag : List OutputAction)
    (h : namespace_stats resp = (diag, some st)) :
    runCommand (.stats ns false) format resp
      = .completed (diag ++ print_stats { st with top_queries := [] } format) ∧
    runCommand (.stats ns true) format resp = .completed (diag ++ print_stats st format) ∧
    ({ st with top_queries := [] } : NamespaceStats).top_queries = [] := by
  refine ⟨?_, ?_, rfl⟩ <;> simp [runCommand, h]

/-- C4 witness: a 200 response carrying one top query renders cleared under
`include_top_queries = false` and unchanged under `true`. -/
theorem include_top_queries_clears_witness :
    namespace_stats (some ⟨200, "\x7b\"rows_read_count\": 1, \"rows_written_count\": 2, \"storage_bytes_used\": 3, \"write_requests_delegated\": 4, \"replication_index\": 5, \"top_queries\": [\x7b\"rows_written\": 7, \"rows_read\": 8, \"query\": \"q\"\x7d]\x7d"⟩)
      = ([], some ⟨1, 2, 3, 4, 5, [⟨7, 8, "q"⟩]⟩) ∧
    runCommand (.stats "db1" false) .normal
        (some ⟨200, "\x7b\"rows_read_count\": 1, \"rows_written_count\": 2, \"storage_bytes_used\": 3, \"write_requests_delegated\": 4, \"replication_index\": 5, \"top_queries\": [\x7b\"rows_written\": 7, \"rows_read\": 8, \"query\": \"q\"\x7d]\x7d"⟩)
      = .completed ([] ++ print_stats { (⟨1, 2, 3, 4, 5, [⟨7, 8, "q"⟩]⟩ : NamespaceStats)
          with top_queries := [] } .normal) ∧
    runCommand (.stats "db1" true) .normal
        (some ⟨200, "\x7b\"rows_read_count\": 1, \"rows_written_count\": 2, \"storage_bytes_used\": 3, \"write_requests_delegated\": 4, \"replication_index\": 5, \"top_queries\": [\x7b\"rows_written\": 7, \"rows_read\": 8, \"query\": \"q\"\x7d]\x7d"⟩)
      = .completed ([] ++ print_stats ⟨1, 2, 3, 4, 5, [⟨7, 8, "q"⟩]⟩ .normal) :=
  ⟨rfl,
    (include_top_queries_clears "db1" .normal _ _ _ rfl).1,
    (include_top_queries_clears "db1" .normal _ _ _ rfl).2.1⟩

/-- C5 witness: the spec's concrete scenario — stats with empty `top_queries`
renders exactly five lines in Normal format. -/
theorem normal_stats_rendering_shape_witness :
    (print_stats ⟨10, 2, 4096, 1, 7, []⟩ .normal).length = 5 :=
  (normal_stats_rendering_shape ⟨10, 2, 4096, 1, 7, []⟩).2 rfl

/-- C6: Json-format success rendering round-trips — parsing the emitted
pretty-printed text yields exactly `\x7b"success": true\x7d` for no-payload
successes, and for stats the object whose `success` field is `true` and whose
`stats` field is the serialization of exactly the rendered `NamespaceStats`
(keys in the emitted, `BTreeMap`-sorted order); in Normal mode the no-payload
success output is the literal text `Success`. -/
theorem json_rendering_round_trips (s : NamespaceStats) :
    print_success .normal = [⟨.viaPrintln, "Success"⟩] ∧
    print_success .json = [⟨.viaWriteStr, successJsonText⟩] ∧
    parseJson successJsonText = some (.obj [("success", .bool true)]) ∧
    print_stats s .json = [⟨.viaWriteStr, statsJsonText s⟩] ∧
    parseJson (statsJsonText s) = some (statsSuccessJson s) ∧
    lookupField (statsSuccessFields s) "success" = some (.bool true) ∧
    lookupField (statsSuccessFields s) "stats" = some (statsToJson s) :=
  ⟨rfl, rfl, parseJson_successJsonText, rfl, parseJson_statsJsonText s, rfl, rfl⟩

/-- C1: for every lifecycle command, a non-2xx response whose body parses as
`ServerError` makes the process render the server-provided text (Normal:
`Error: ...` on the error stream; Json: the pretty-printed `ServerError`
object, which parses back to exactly that object) and exit with the non-zero
status `-1` immediately after, the rendering being the only output. -/
theorem lifecycle_error_rendering (r : Response) (err : ServerError)
    (name fromNs toNs : String)
    (hstatus : is_success r.status = false)
    (hbody : serverErrorFromBody r.body = some err) :
    runCommand (.createNamespace name) .normal (some r)
      = .exited (-1) [⟨.viaEprintln, "Error: " ++ err.error⟩] ∧
    runCommand (.createNamespace name) .json (some r)
      = .exited (-1) [⟨.viaWriteStr, errorJsonText err⟩] ∧
    runCommand (.deleteNamespace name) .normal (some r)
      = .exited (-1) [⟨.viaEprintln, "Error: " ++ err.error⟩] ∧
    runCommand (.deleteNamespace name) .json (some r)
      = .exited (-1) [⟨.viaWriteStr, errorJsonText err⟩] ∧
    runCommand (.fork fromNs toNs) .normal (some r)
      = .exited (-1) [⟨.viaEprintln, "Error: " ++ err.error⟩] ∧
    runCommand (.fork fromNs toNs) .json (some r)
      = .exited (-1) [⟨.viaWriteStr, errorJsonText err⟩] ∧
    err.error.data <:+ ("Error: " ++ err.error).data ∧
    parseJson (errorJsonText err) = some (.obj [("error", .str err.error)]) ∧
    (-1 : Int) ≠ 0 := by
  refine ⟨?_, ?_, ?_, ?_, ?_, ?_,
    ⟨"Error: ".data, (String.data_append _ _).symm⟩,
    parseJson_errorJsonText err, by decide⟩ <;>
  simp [runCommand, create_namespace, delete_namespace, fork_namespace, hstatus, hbody,
    print_server_error]

/-- C1 witness: a 400 response carrying `\x7b"error": "namespace already
exists"\x7d` makes `create-namespace` print the message to the error stream
and exit with status `-1`. -/
theorem lifecycle_error_rendering_witness :
    is_success 400 = false ∧
    serverErrorFromBody "\x7b\"error\": \"namespace already exists\"\x7d"
      = some ⟨"namespace already exists"⟩ ∧
    runCommand (.createNamespace "db1") .normal
        (some ⟨400, "\x7b\"error\": \"namespace already exists\"\x7d"⟩)
      = .exited (-1) [⟨.viaEprintln, "Error: namespace already exists"⟩] :=
  ⟨rfl, rfl,
    (lifecycle_error_rendering ⟨400, "\x7b\"error\": \"namespace already exists\"\x7d"⟩
      ⟨"namespace already exists"⟩ "db1" "a" "b" rfl rfl).1⟩

end Wimpod
